import Mathlib

/-!
Shallow embedding of the schedule-notification core of the profit-backend
repository: the due-time evaluator and sweep (src/utils/scheduleService,
given as src/unnamed/part_000), the recurrence advancer and the schedule
controller (src/controllers/scheduleController, given as src/unnamed/part_011),
and the Schedule model (src/models/Schedule, given as src/unnamed/part_003).

Timestamps are modelled as `Int` milliseconds since the Unix epoch.  The
JavaScript code reads calendar fields (getFullYear/getMonth/.../getMinutes,
setDate/setMonth/setFullYear) in the server's local timezone; the embedding
fixes a zero (UTC) offset, which is faithful for any fixed whole-minute
offset: minute-field equality is then equality of `t / 60000`, and the
calendar-arithmetic setters are the civil-calendar operations implemented
below.  Strings are carried opaquely (the `.trim()` normalisations are
identity in the model; no claim depends on them).
-/

namespace Profit

def msPerMinute : Int := 60000

def msPerDay : Int := 86400000

/-- Ceiling division, `Math.ceil (a / b)` for positive `b`: JavaScript performs
the real division and then `Math.ceil`; for integer `a` and positive integer
`b` that is the ceiling, i.e. the negated floor division of `-a` by `b`. -/
def ceilDiv (a b : Int) : Int := -((-a) / b)

/-- Frequency enum of the Schedule model (src/unnamed/part_003, `frequency`). -/
inductive Frequency where
  | once
  | daily
  | weekly
  | monthly
  | yearly
deriving DecidableEq, Repr

/-- Status enum of the Schedule model (src/unnamed/part_003, `status`). -/
inductive Status where
  | pending
  | completed
  | cancelled
deriving DecidableEq, Repr

/-- The Schedule record (src/unnamed/part_003).  `clientId` and `userId` are
opaque identifiers; date fields are epoch milliseconds. -/
structure Schedule where
  title : String
  description : Option String := none
  clientId : Option String := none
  dueDate : Int
  frequency : Frequency := Frequency.once
  amount : Option Int := none
  status : Status := Status.pending
  notifyUser : Bool := true
  notifyClient : Bool := false
  userNotificationMessage : Option String := none
  clientNotificationMessage : Option String := none
  advanceNotificationDays : Int := 0
  repeatUntil : Option Int := none
  userId : String
  lastNotified : Option Int := none
  nextDueDate : Option Int := none
deriving DecidableEq, Repr

/-! ### Due-time evaluator (src/unnamed/part_000, lines 8-31 and 45-70) -/

/-- Embeds `isSameMinute` (part_000 lines 8-19): two instants share the
calendar minute (year, month, day, hour, minute all equal), which for a fixed
whole-minute timezone offset is equality of the floor minute index. -/
def isSameMinute (d1 d2 : Int) : Bool :=
  decide (d1 / msPerMinute = d2 / msPerMinute)

/-- Embeds `isTimeToSend` (part_000 lines 22-31):
`|scheduled - now| <= 60000 && scheduled <= now`. -/
def isTimeToSend (scheduledDate now : Int) : Bool :=
  decide ((scheduledDate - now).natAbs ≤ 60000) && decide (scheduledDate ≤ now)

/-- Embeds `Math.ceil((dueDate - nowDate) / (1000*60*60*24))`
(part_000 line 50). -/
def daysUntilDue (dueDate now : Int) : Int :=
  ceilDiv (dueDate - now) msPerDay

/-- The advance-notification target instant
`dueDate - advanceNotificationDays * 24h` (part_000 lines 56 and 67). -/
def advanceTarget (s : Schedule) : Int :=
  s.dueDate - s.advanceNotificationDays * msPerDay

/-- Embeds `shouldSendAdvance` (part_000 lines 53-58). -/
def shouldSendAdvance (s : Schedule) (now : Int) : Bool :=
  decide (s.advanceNotificationDays > 0) &&
  decide (daysUntilDue s.dueDate now = s.advanceNotificationDays) &&
  isTimeToSend (advanceTarget s) now

/-- Embeds `shouldSendDue` (part_000 line 61). -/
def shouldSendDue (s : Schedule) (now : Int) : Bool :=
  decide (daysUntilDue s.dueDate now = 0) && isTimeToSend s.dueDate now

/-- Embeds `alreadyNotified` (part_000 lines 63-68): the dedup flag compares
`lastNotified` with the firing's target instant (`dueDate`, or the advance
target), not with the current tick's `now`. -/
def alreadyNotified (s : Schedule) (now : Int) : Bool :=
  match s.lastNotified with
  | none => false
  | some ln =>
      (shouldSendDue s now && isSameMinute ln s.dueDate) ||
      (shouldSendAdvance s now && isSameMinute ln (advanceTarget s))

/-- The firing decision `(shouldSendAdvance || shouldSendDue) && !alreadyNotified`
(part_000 line 70). -/
def willFire (s : Schedule) (now : Int) : Bool :=
  (shouldSendAdvance s now || shouldSendDue s now) && !(alreadyNotified s now)

/-! ### Civil-calendar arithmetic

JavaScript `Date` setters (`setDate`, `setMonth`, `setFullYear`) write a
calendar field and renormalise, letting an out-of-range day-of-month overflow
into the following month(s).  With a fixed zero offset this is exactly:
decompose the epoch-day into proleptic-Gregorian `(year, month, day)`, move
the field, and rebuild the epoch-day as `day 1 of the target month` plus
`(day - 1)` days.  The conversions use the standard era-based civil-calendar
algorithms. -/

/-- Epoch-day number of the proleptic-Gregorian civil date `(y, m, d)` with
`m` in 1..12; linear in `d`, so out-of-range `d` overflows into following
months exactly as a JavaScript `Date` renormalises. -/
def daysFromCivil (y m d : Int) : Int :=
  let y1 := y - (if m ≤ 2 then 1 else 0)
  let era := y1 / 400
  let yoe := y1 - era * 400
  let doy := (153 * (m + (if m > 2 then -3 else 9)) + 2) / 5 + d - 1
  let doe := yoe * 365 + yoe / 4 - yoe / 100 + doy
  era * 146097 + doe - 719468

/-- Civil date `(y, m, d)` (month 1..12) of an epoch-day number. -/
def civilFromDays (z : Int) : Int × Int × Int :=
  let z1 := z + 719468
  let era := z1 / 146097
  let doe := z1 - era * 146097
  let yoe := (doe - doe / 1460 + doe / 36524 - doe / 146096) / 365
  let y := yoe + era * 400
  let doy := doe - (365 * yoe + yoe / 4 - yoe / 100)
  let mp := (5 * doy + 2) / 153
  let d := doy - (153 * mp + 2) / 5 + 1
  let m := mp + (if mp < 10 then 3 else -9)
  (y + (if m ≤ 2 then 1 else 0), m, d)

/-- Month field (1..12) of a timestamp's civil date. -/
def monthOf (t : Int) : Int := (civilFromDays (t / msPerDay)).2.1

/-- Year field of a timestamp's civil date. -/
def yearOf (t : Int) : Int := (civilFromDays (t / msPerDay)).1

/-- Embeds `nextDate.setMonth(nextDate.getMonth() + 1)`
(src/unnamed/part_011 line 19): keep the day-of-month and time-of-day, advance
the month (rolling into January of the next year from December), and let an
overflowing day-of-month spill into the following month. -/
def jsAddMonth (t : Int) : Int :=
  let day := t / msPerDay
  let rem := t - day * msPerDay
  let ymd := civilFromDays day
  let y := ymd.1
  let m := ymd.2.1
  let d := ymd.2.2
  let y2 := if m = 12 then y + 1 else y
  let m2 := if m = 12 then 1 else m + 1
  (daysFromCivil y2 m2 1 + (d - 1)) * msPerDay + rem

/-- Embeds `nextDate.setFullYear(nextDate.getFullYear() + 1)`
(src/unnamed/part_011 line 22): advance the year keeping month, day-of-month
and time-of-day, Feb 29 spilling to Mar 1 in a non-leap target year. -/
def jsAddYear (t : Int) : Int :=
  let day := t / msPerDay
  let rem := t - day * msPerDay
  let ymd := civilFromDays day
  (daysFromCivil (ymd.1 + 1) ymd.2.1 1 + (ymd.2.2 - 1)) * msPerDay + rem

/-! ### Recurrence advancer (src/unnamed/part_011, lines 6-33) -/

/-- The frequency-specific candidate next date computed by the `switch` in
`calculateNextDueDate` (part_011 lines 10-26).  `setDate(getDate() + k)` is
exactly a shift by `k` days.  The `once` arm is never reached by
`calculateNextDueDate` (it returns early). -/
def candidateNext (dueDate : Int) : Frequency → Int
  | Frequency.once => dueDate
  | Frequency.daily => dueDate + msPerDay
  | Frequency.weekly => dueDate + 7 * msPerDay
  | Frequency.monthly => jsAddMonth dueDate
  | Frequency.yearly => jsAddYear dueDate

/-- Embeds `repeatUntil && new Date() > new Date(repeatUntil)`
(part_011 line 8); `now` is the wall clock at call time. -/
def pastRepeatUntil (now : Int) : Option Int → Bool
  | some r => decide (now > r)
  | none => false

/-- Embeds `calculateNextDueDate(dueDate, frequency, repeatUntil)`
(part_011 lines 6-33).  The source reads the wall clock (`new Date()`) in its
`repeatUntil`-already-past guard; that instant is passed here explicitly as
`now`.  The typed `Frequency` makes the source's `!frequency` and `default`
branches unreachable. -/
def calculateNextDueDate (now dueDate : Int) (frequency : Frequency)
    (repeatUntil : Option Int) : Option Int :=
  if frequency = Frequency.once then none
  else if pastRepeatUntil now repeatUntil then none
  else
    let nextDate := candidateNext dueDate frequency
    match repeatUntil with
    | some r => if nextDate > r then none else some nextDate
    | none => some nextDate

example : daysFromCivil 1970 1 1 = 0 := by decide

example : civilFromDays 0 = (1970, 1, 1) := by decide

example : civilFromDays 19753 = (2024, 1, 31) := by decide

example :
    calculateNextDueDate 0 1706659200000 Frequency.monthly none =
      some 1709337600000 := by decide

example : civilFromDays (1709337600000 / msPerDay) = (2024, 3, 2) := by decide

/-! ### Completion / rollover workflow (src/unnamed/part_011, lines 279-375) -/

/-- The successor record built by `completeSchedule` (part_011 lines 307-322)
when the original is recurring, had a `nextDueDate`, and the freshly advanced
`newNextDueDate` is non-null: `dueDate` is the old `nextDueDate`, all
notification settings, `frequency`, `repeatUntil`, `amount` and identifiers
are carried over, `status` and `lastNotified` take the model defaults
(`pending`, unset). -/
def rolloverSuccessor (s : Schedule) (nd newNext : Int) : Schedule :=
  { title := s.title
    description := s.description
    clientId := s.clientId
    dueDate := nd
    frequency := s.frequency
    amount := s.amount
    status := Status.pending
    notifyUser := s.notifyUser
    notifyClient := s.notifyClient
    userNotificationMessage := s.userNotificationMessage
    clientNotificationMessage := s.clientNotificationMessage
    advanceNotificationDays := s.advanceNotificationDays
    repeatUntil := s.repeatUntil
    userId := s.userId
    lastNotified := none
    nextDueDate := some newNext }

/-- Embeds the state transformation of `completeSchedule`
(part_011 lines 294-327), with all persistence succeeding: the original gets
`status := completed` and nothing else changes on it; the returned list holds
the created successor records (empty unless the reminder is recurring, has a
`nextDueDate`, and `calculateNextDueDate` seeded from that `nextDueDate`
returns a value — the `if (newNextDueDate)` guard at line 305). -/
def completeScheduleCore (now : Int) (s : Schedule) : Schedule × List Schedule :=
  let completed := { s with status := Status.completed }
  match s.nextDueDate with
  | some nd =>
      if s.frequency ≠ Frequency.once then
        match calculateNextDueDate now nd s.frequency s.repeatUntil with
        | some newNext => (completed, [rolloverSuccessor s nd newNext])
        | none => (completed, [])
      else (completed, [])
  | none => (completed, [])

/-- Observable outcome of one `completeSchedule` call against the store:
whether the call responds successfully (rather than with the catch-all 500 of
part_011 lines 371-374), the original record's status as persisted, and the
successor records persisted. -/
structure CompleteRunResult where
  responseOk : Bool
  storedOriginalStatus : Status
  storedNew : List Schedule
deriving DecidableEq, Repr

/-- Embeds `completeSchedule` (part_011 lines 294-374) together with its
persistence order, parameterised by whether the successor's save succeeds
(`succSaveOk`; the original's save is taken to succeed).  In the source the
successor's `newSchedule.save()` (line 323) runs BEFORE the original's
`schedule.save()` (line 327) and is not individually guarded, so its failure
jumps to the controller's catch (lines 371-374): the call responds 500 and
the original's in-memory `status = completed` is never persisted. -/
def completeScheduleRun (now : Int) (s : Schedule) (succSaveOk : Bool) :
    CompleteRunResult :=
  match s.nextDueDate with
  | some nd =>
      if s.frequency ≠ Frequency.once then
        match calculateNextDueDate now nd s.frequency s.repeatUntil with
        | some newNext =>
            if succSaveOk then
              { responseOk := true
                storedOriginalStatus := Status.completed
                storedNew := [rolloverSuccessor s nd newNext] }
            else
              { responseOk := false
                storedOriginalStatus := s.status
                storedNew := [] }
        | none =>
            { responseOk := true
              storedOriginalStatus := Status.completed
              storedNew := [] }
      else
        { responseOk := true
          storedOriginalStatus := Status.completed
          storedNew := [] }
  | none =>
      { responseOk := true
        storedOriginalStatus := Status.completed
        storedNew := [] }

/-! ### Update workflow (src/unnamed/part_011, lines 176-256) -/

/-- Partial-update request body of `updateSchedule` (part_011 lines 188-202):
`none` means the field is absent from the request; doubly-optional fields
distinguish an absent field from an explicit clearing value (the source's
`repeatUntil ? new Date(repeatUntil) : undefined` etc.). -/
structure UpdateRequest where
  title : Option String := none
  description : Option (Option String) := none
  clientId : Option String := none
  dueDate : Option Int := none
  frequency : Option Frequency := none
  amount : Option (Option Int) := none
  status : Option Status := none
  notifyUser : Option Bool := none
  notifyClient : Option Bool := none
  userNotificationMessage : Option (Option String) := none
  clientNotificationMessage : Option (Option String) := none
  advanceNotificationDays : Option Int := none
  repeatUntil : Option (Option Int) := none
deriving Repr

/-- Embeds the happy path of `updateSchedule` (part_011 lines 204-246): each
present field overwrites the stored one (`status` included, with no
transition guard — line 215), then `nextDueDate` is unconditionally
recomputed from the resulting `frequency`/`dueDate`/`repeatUntil`
(lines 235-244) whether or not any date-related field was in the request. -/
def updateScheduleCore (now : Int) (s : Schedule) (r : UpdateRequest) :
    Schedule :=
  let s1 : Schedule :=
    { s with
      title := r.title.getD s.title
      description := r.description.getD s.description
      clientId := r.clientId.elim s.clientId (fun c => some c)
      dueDate := r.dueDate.getD s.dueDate
      frequency := r.frequency.getD s.frequency
      amount := r.amount.getD s.amount
      status := r.status.getD s.status
      notifyUser := r.notifyUser.getD s.notifyUser
      notifyClient := r.notifyClient.getD s.notifyClient
      userNotificationMessage :=
        r.userNotificationMessage.getD s.userNotificationMessage
      clientNotificationMessage :=
        r.clientNotificationMessage.getD s.clientNotificationMessage
      advanceNotificationDays :=
        r.advanceNotificationDays.getD s.advanceNotificationDays
      repeatUntil := r.repeatUntil.getD s.repeatUntil }
  if s1.frequency ≠ Frequency.once then
    { s1 with
      nextDueDate := calculateNextDueDate now s1.dueDate s1.frequency s1.repeatUntil }
  else
    { s1 with nextDueDate := none }

/-! ### Sweep tick (src/unnamed/part_000, lines 34-106)

Per-reminder external outcomes are an oracle: whether `User.findById`
resolves to a user, to null, or rejects; whether each email send resolves;
whether `schedule.save()` resolves.  The two email sends are individually
wrapped in try/catch (lines 80-96); the user lookup and the save are not, so
their rejections escape the `for` loop to the sweep-level catch
(lines 103-105), which swallows them — ending the tick early but never
propagating out of it. -/

/-- Outcome of the `User.findById` promise (part_000 line 72): it resolves to
a user, resolves to null, or rejects. -/
inductive LookupOutcome where
  | found
  | missing
  | rejected
deriving DecidableEq, Repr

/-- External outcomes for processing one reminder during a tick. -/
structure World where
  userRes : LookupOutcome
  sendUserOk : Bool
  sendClientOk : Bool
  saveOk : Bool
deriving DecidableEq, Repr

/-- What one loop iteration observably did. -/
structure ProcFlags where
  userNotifSent : Bool
  clientNotifSent : Bool
  lastNotifiedUpdated : Bool
deriving DecidableEq, Repr

/-- Result of one loop iteration: the reminder's state as persisted in the
store afterwards, the actions performed, and whether an exception escaped
the iteration (to be caught by the sweep-level handler). -/
structure ProcResult where
  sched : Schedule
  flags : ProcFlags
  threw : Bool
deriving DecidableEq, Repr

/-- Embeds one iteration of the `for` loop of `checkAndSendNotifications`
(part_000 lines 45-101): if the firing condition holds, look up the user
(`continue` on null, escape on rejection), attempt each enabled send with its
failure absorbed, then persist `lastNotified = now` (escape on save
rejection, leaving the stored record unchanged). -/
def processSchedule (now : Int) (s : Schedule) (w : World) : ProcResult :=
  if willFire s now then
    match w.userRes with
    | LookupOutcome.rejected => ⟨s, ⟨false, false, false⟩, true⟩
    | LookupOutcome.missing => ⟨s, ⟨false, false, false⟩, false⟩
    | LookupOutcome.found =>
        let userSent := s.notifyUser && w.sendUserOk
        let clientSent := s.notifyClient && s.clientId.isSome && w.sendClientOk
        if w.saveOk then
          ⟨{ s with lastNotified := some now }, ⟨userSent, clientSent, true⟩, false⟩
        else
          ⟨s, ⟨userSent, clientSent, false⟩, true⟩
  else ⟨s, ⟨false, false, false⟩, false⟩

/-- Embeds one tick over the loaded pending reminders (part_000 lines 34-106):
iterations run in order; the first escaping exception aborts the loop, and
the sweep-level catch absorbs it, so the remaining reminders keep their
stored state untouched and receive no notifications.  The function is total:
nothing propagates out of the tick. -/
def sweepTick (now : Int) : List (Schedule × World) → List ProcResult
  | [] => []
  | (s, w) :: rest =>
      let r := processSchedule now s w
      if r.threw then
        r :: rest.map (fun p => ⟨p.1, ⟨false, false, false⟩, false⟩)
      else
        r :: sweepTick now rest

/-! ### Shared lemmas -/

/-- Two instants in the same calendar minute with the first at or after the
second are less than one minute apart. -/
lemma sub_lt_of_isSameMinute {a b : Int} (hm : isSameMinute a b = true)
    (hle : b ≤ a) : a - b < 60000 := by
  simp only [isSameMinute, msPerMinute, decide_eq_true_eq] at hm
  omega

/-- Same-calendar-minute is transitive. -/
lemma isSameMinute_trans {a b c : Int} (h1 : isSameMinute a b = true)
    (h2 : isSameMinute b c = true) : isSameMinute a c = true := by
  simp only [isSameMinute, msPerMinute, decide_eq_true_eq] at *
  omega

/-! ### C2 -/

/-- C2: the due-date firing is eligible exactly when `daysUntilDue = 0` and
`dueDate ≤ now ≤ dueDate + 60s`; it is never eligible strictly before
`dueDate`, and never once `now` is more than 60 seconds past `dueDate`
(eligibility does not read `lastNotified`, so being unset cannot restore
it — no retroactive catch-up). -/
theorem dueFiring_window_characterisation (s : Schedule) (now : Int) :
    (shouldSendDue s now = true ↔
      (daysUntilDue s.dueDate now = 0 ∧ s.dueDate ≤ now ∧ now ≤ s.dueDate + 60000)) ∧
    (now < s.dueDate → shouldSendDue s now = false) ∧
    (s.dueDate + 60000 < now → shouldSendDue s now = false) := by
  simp only [shouldSendDue, isTimeToSend, daysUntilDue, ceilDiv, msPerDay,
    Bool.and_eq_true, decide_eq_true_eq, Bool.and_eq_false_iff,
    decide_eq_false_iff_not]
  omega

/-- Concrete instantiation of the C2 characterisation. -/
theorem dueFiring_window_characterisation_witness :
    (shouldSendDue { title := "rent", dueDate := 0, userId := "u1" } 50 = true ↔
      (daysUntilDue ({ title := "rent", dueDate := 0, userId := "u1" } : Schedule).dueDate 50 = 0 ∧
        ({ title := "rent", dueDate := 0, userId := "u1" } : Schedule).dueDate ≤ 50 ∧
        50 ≤ ({ title := "rent", dueDate := 0, userId := "u1" } : Schedule).dueDate + 60000)) ∧
    (50 < ({ title := "rent", dueDate := 0, userId := "u1" } : Schedule).dueDate →
      shouldSendDue { title := "rent", dueDate := 0, userId := "u1" } 50 = false) ∧
    (({ title := "rent", dueDate := 0, userId := "u1" } : Schedule).dueDate + 60000 < 50 →
      shouldSendDue { title := "rent", dueDate := 0, userId := "u1" } 50 = false) :=
  dueFiring_window_characterisation { title := "rent", dueDate := 0, userId := "u1" } 50

/-! ### C1 -/

/-- A reminder due at second 50 of minute 0, no advance notice. -/
def c1Sched : Schedule := { title := "rent", dueDate := 50000, userId := "u1" }

/-- C1 counterexample: with `dueDate` at second 50 of a minute, a first
evaluation at second 10 of the next minute fires the due notification; after
`lastNotified := that now`, a second evaluation twenty seconds later — in the
same calendar minute as the first — is NOT suppressed and fires again,
because the dedup compares `lastNotified` against `dueDate`'s calendar
minute, not against the previous evaluation's. -/
theorem dueFiring_not_idempotent_counterexample :
    c1Sched.advanceNotificationDays = 0 ∧
    c1Sched.lastNotified = none ∧
    c1Sched.dueDate ≤ 70000 ∧
    isSameMinute 70000 90000 = true ∧
    willFire c1Sched 70000 = true ∧
    shouldSendDue c1Sched 70000 = true ∧
    shouldSendDue { c1Sched with lastNotified := some 70000 } 90000 = true ∧
    alreadyNotified { c1Sched with lastNotified := some 70000 } 90000 = false ∧
    willFire { c1Sched with lastNotified := some 70000 } 90000 = true := by
  decide

/-- C1 (amended): the two-evaluation suppression holds provided the first
evaluation's `now` additionally falls in the same calendar minute as
`dueDate` itself: then the first evaluation fires the due notification, and
after `lastNotified` is set to that `now`, any later evaluation in that same
calendar minute sees the due firing as already notified and does not fire. -/
theorem dueFiring_idempotent_in_dueDate_minute (s : Schedule) (now1 now2 : Int)
    (hadv : s.advanceNotificationDays = 0)
    (hln : s.lastNotified = none)
    (h1 : s.dueDate ≤ now1)
    (h1m : isSameMinute now1 s.dueDate = true)
    (h12 : now1 ≤ now2)
    (h2m : isSameMinute now2 now1 = true) :
    willFire s now1 = true ∧
    shouldSendDue { s with lastNotified := some now1 } now2 = true ∧
    alreadyNotified { s with lastNotified := some now1 } now2 = true ∧
    willFire { s with lastNotified := some now1 } now2 = false := by
  have hmin1 : now1 - s.dueDate < 60000 := sub_lt_of_isSameMinute h1m h1
  have h2 : s.dueDate ≤ now2 := le_trans h1 h12
  have hmin2 : now2 - s.dueDate < 60000 :=
    sub_lt_of_isSameMinute (isSameMinute_trans h2m h1m) h2
  have hproj : ({ s with lastNotified := some now1 } : Schedule).dueDate =
      s.dueDate := rfl
  have hssd1 : shouldSendDue s now1 = true := by
    simp only [shouldSendDue, isTimeToSend, daysUntilDue, ceilDiv, msPerDay,
      Bool.and_eq_true, decide_eq_true_eq]
    omega
  have hssd2 : shouldSendDue { s with lastNotified := some now1 } now2 = true := by
    simp only [shouldSendDue, isTimeToSend, daysUntilDue, ceilDiv, msPerDay,
      hproj, Bool.and_eq_true, decide_eq_true_eq]
    omega
  have halready : alreadyNotified { s with lastNotified := some now1 } now2 = true := by
    simp only [alreadyNotified, hssd2, hproj, h1m, Bool.true_and,
      Bool.true_or, Bool.or_eq_true]
  refine ⟨?_, hssd2, halready, ?_⟩
  · simp [willFire, hssd1, alreadyNotified, hln]
  · simp [willFire, halready]

/-- Concrete instantiation of the amended C1 idempotence. -/
theorem dueFiring_idempotent_in_dueDate_minute_witness :
    willFire { title := "rent", dueDate := 0, userId := "u1" } 10000 = true ∧
    shouldSendDue { ({ title := "rent", dueDate := 0, userId := "u1" } : Schedule) with
      lastNotified := some 10000 } 20000 = true ∧
    alreadyNotified { ({ title := "rent", dueDate := 0, userId := "u1" } : Schedule) with
      lastNotified := some 10000 } 20000 = true ∧
    willFire { ({ title := "rent", dueDate := 0, userId := "u1" } : Schedule) with
      lastNotified := some 10000 } 20000 = false :=
  dueFiring_idempotent_in_dueDate_minute
    { title := "rent", dueDate := 0, userId := "u1" } 10000 20000
    (by decide) (by decide) (by decide) (by decide) (by decide) (by decide)

/-! ### C5 -/

/-- C5 counterexample: advancing `dueDate = 2024-01-31T00:00Z`
(epoch ms 1706659200000) by one month with no `repeatUntil` yields
2024-03-02 (epoch ms 1709337600000 = day 19784), which is NOT in February:
the JavaScript `setMonth` lets the day-of-month overflow past February's 29
days into March.  The wall-clock argument (taken here as the due instant) is
irrelevant because `repeatUntil` is null. -/
theorem monthlyAdvance_jan31_counterexample :
    calculateNextDueDate 1706659200000 1706659200000 Frequency.monthly none =
      some 1709337600000 ∧
    yearOf 1709337600000 = 2024 ∧
    monthOf 1709337600000 = 3 ∧
    ¬ monthOf 1709337600000 = 2 := by
  decide

/-- C5 (amended): for every call instant, the recurrence advancer applied to
`dueDate = 2024-01-31T00:00Z` with `frequency = monthly` and
`repeatUntil = null` returns 2024-03-02T00:00Z — day-of-month overflow rolls
past February into March rather than clamping inside February. -/
theorem monthlyAdvance_jan31_overflows_to_march (now : Int) :
    calculateNextDueDate now 1706659200000 Frequency.monthly none =
      some 1709337600000 ∧
    civilFromDays (1709337600000 / msPerDay) = (2024, 3, 2) :=
  ⟨rfl, by decide⟩

/-! ### C6 -/

/-- C6: with `repeatUntil` set, the advancer returns none when `repeatUntil`
is already strictly in the past of the call-time wall clock (for every
frequency, before any frequency arithmetic matters), and none when the
frequency-specific candidate exceeds `repeatUntil`; in particular `weekly`
with `repeatUntil = dueDate + 3 days` returns none. -/
theorem repeatUntil_stops_series (now dueDate r : Int) (freq : Frequency) :
    (r < now → calculateNextDueDate now dueDate freq (some r) = none) ∧
    (r < candidateNext dueDate freq →
      calculateNextDueDate now dueDate freq (some r) = none) ∧
    calculateNextDueDate now dueDate Frequency.weekly
      (some (dueDate + 3 * msPerDay)) = none := by
  refine ⟨?_, ?_, ?_⟩
  · intro h
    have hp : pastRepeatUntil now (some r) = true := by
      simp only [pastRepeatUntil, decide_eq_true_eq, gt_iff_lt]
      exact h
    simp [calculateNextDueDate, hp]
  · intro h
    by_cases hf : freq = Frequency.once
    · simp [calculateNextDueDate, hf]
    · by_cases hp : pastRepeatUntil now (some r) = true
      · simp [calculateNextDueDate, hf, hp]
      · simp only [Bool.not_eq_true] at hp
        simp [calculateNextDueDate, hf, hp, h]
  · by_cases hp : pastRepeatUntil now (some (dueDate + 3 * msPerDay)) = true
    · simp [calculateNextDueDate, hp]
    · simp only [Bool.not_eq_true] at hp
      have hc : dueDate + 3 * msPerDay < candidateNext dueDate Frequency.weekly := by
        simp only [candidateNext, msPerDay]
        omega
      simp [calculateNextDueDate, hp, hc]

/-- Concrete instantiation of the C6 repeat-until behaviour: a weekly series
due 1970-01-02 set to repeat only until three days later never advances. -/
theorem repeatUntil_stops_series_witness :
    (86400000 + 3 * msPerDay < (0 : Int) →
      calculateNextDueDate 0 86400000 Frequency.weekly
        (some (86400000 + 3 * msPerDay)) = none) ∧
    (86400000 + 3 * msPerDay < candidateNext 86400000 Frequency.weekly →
      calculateNextDueDate 0 86400000 Frequency.weekly
        (some (86400000 + 3 * msPerDay)) = none) ∧
    calculateNextDueDate 0 86400000 Frequency.weekly
      (some (86400000 + 3 * msPerDay)) = none :=
  repeatUntil_stops_series 0 86400000 (86400000 + 3 * msPerDay) Frequency.weekly

/-! ### C3 -/

/-- A pending daily reminder whose series ends at its own `nextDueDate`. -/
def c3Sched : Schedule :=
  { title := "invoice", dueDate := 86400000, userId := "u1"
    frequency := Frequency.daily, status := Status.pending
    nextDueDate := some 172800000, repeatUntil := some 172800000 }

/-- C3 counterexample: a `frequency = daily`, `status = pending` reminder
with non-null `nextDueDate = 1970-01-03` but `repeatUntil = 1970-01-03`
produces ZERO new records on completion — the freshly computed successor
`nextDueDate` (1970-01-04) exceeds `repeatUntil`, so the advancer returns
none and the `if (newNextDueDate)` guard skips creation entirely, even
though the successor's own `dueDate` would still lie within `repeatUntil`. -/
theorem completion_spawn_counterexample :
    c3Sched.frequency = Frequency.daily ∧
    c3Sched.status = Status.pending ∧
    c3Sched.nextDueDate = some 172800000 ∧
    calculateNextDueDate 0 172800000 c3Sched.frequency c3Sched.repeatUntil = none ∧
    (completeScheduleCore 0 c3Sched).2 = [] ∧
    (completeScheduleCore 0 c3Sched).1 = { c3Sched with status := Status.completed } :=
  ⟨rfl, rfl, rfl, rfl, rfl, rfl⟩

/-- C3 (amended): completing a `frequency = daily`, `status = pending`
reminder with non-null `nextDueDate` produces exactly one new pending record
with `dueDate` equal to the old `nextDueDate`, all settings carried over and
a freshly computed `nextDueDate`, and flips the original's status to
completed touching nothing else — PROVIDED the recurrence advancer seeded
from the old `nextDueDate` returns a non-null value; otherwise no record is
created. -/
theorem completion_spawns_successor (now : Int) (s : Schedule) (nd k : Int)
    (hfreq : s.frequency = Frequency.daily)
    (hst : s.status = Status.pending)
    (hnd : s.nextDueDate = some nd)
    (hcalc : calculateNextDueDate now nd s.frequency s.repeatUntil = some k) :
    (completeScheduleCore now s).2 = [rolloverSuccessor s nd k] ∧
    (rolloverSuccessor s nd k).status = Status.pending ∧
    (rolloverSuccessor s nd k).dueDate = nd ∧
    (rolloverSuccessor s nd k).frequency = s.frequency ∧
    (rolloverSuccessor s nd k).repeatUntil = s.repeatUntil ∧
    (rolloverSuccessor s nd k).notifyUser = s.notifyUser ∧
    (rolloverSuccessor s nd k).notifyClient = s.notifyClient ∧
    (rolloverSuccessor s nd k).userNotificationMessage = s.userNotificationMessage ∧
    (rolloverSuccessor s nd k).clientNotificationMessage = s.clientNotificationMessage ∧
    (rolloverSuccessor s nd k).advanceNotificationDays = s.advanceNotificationDays ∧
    (rolloverSuccessor s nd k).title = s.title ∧
    (rolloverSuccessor s nd k).clientId = s.clientId ∧
    (rolloverSuccessor s nd k).userId = s.userId ∧
    (rolloverSuccessor s nd k).nextDueDate = some k ∧
    (completeScheduleCore now s).1 = { s with status := Status.completed } := by
  rw [hfreq] at hcalc
  simp [completeScheduleCore, rolloverSuccessor, hnd, hfreq, hcalc]

/-- A pending daily reminder with an open-ended series. -/
def c3Open : Schedule :=
  { title := "invoice", dueDate := 86400000, userId := "u1"
    frequency := Frequency.daily, status := Status.pending
    nextDueDate := some 172800000 }

/-- Concrete instantiation of the amended C3 completion behaviour. -/
theorem completion_spawns_successor_witness :
    (completeScheduleCore 0 c3Open).2 = [rolloverSuccessor c3Open 172800000 259200000] ∧
    (rolloverSuccessor c3Open 172800000 259200000).status = Status.pending ∧
    (rolloverSuccessor c3Open 172800000 259200000).dueDate = 172800000 ∧
    (rolloverSuccessor c3Open 172800000 259200000).frequency = c3Open.frequency ∧
    (rolloverSuccessor c3Open 172800000 259200000).repeatUntil = c3Open.repeatUntil ∧
    (rolloverSuccessor c3Open 172800000 259200000).notifyUser = c3Open.notifyUser ∧
    (rolloverSuccessor c3Open 172800000 259200000).notifyClient = c3Open.notifyClient ∧
    (rolloverSuccessor c3Open 172800000 259200000).userNotificationMessage =
      c3Open.userNotificationMessage ∧
    (rolloverSuccessor c3Open 172800000 259200000).clientNotificationMessage =
      c3Open.clientNotificationMessage ∧
    (rolloverSuccessor c3Open 172800000 259200000).advanceNotificationDays =
      c3Open.advanceNotificationDays ∧
    (rolloverSuccessor c3Open 172800000 259200000).title = c3Open.title ∧
    (rolloverSuccessor c3Open 172800000 259200000).clientId = c3Open.clientId ∧
    (rolloverSuccessor c3Open 172800000 259200000).userId = c3Open.userId ∧
    (rolloverSuccessor c3Open 172800000 259200000).nextDueDate = some 259200000 ∧
    (completeScheduleCore 0 c3Open).1 = { c3Open with status := Status.completed } :=
  completion_spawns_successor 0 c3Open 172800000 259200000 rfl rfl rfl rfl

/-! ### C4 -/

/-- A pending daily reminder whose completion will attempt a rollover. -/
def c4Sched : Schedule :=
  { title := "invoice", dueDate := 86400000, userId := "u1"
    frequency := Frequency.daily, status := Status.pending
    nextDueDate := some 172800000 }

/-- C4 counterexample: when the successor's save fails during completion of
a pending recurring reminder, the call responds with the catch-all error
(the failure IS surfaced) and the original's `status = completed` is NOT
persisted — the stored record remains pending, because the successor's save
runs before the original's save and is not individually guarded. -/
theorem completion_successor_failure_counterexample :
    c4Sched.status = Status.pending ∧
    (completeScheduleRun 0 c4Sched false).responseOk = false ∧
    (completeScheduleRun 0 c4Sched false).storedOriginalStatus = Status.pending ∧
    (completeScheduleRun 0 c4Sched false).storedNew = [] ∧
    (completeScheduleRun 0 c4Sched true).responseOk = true ∧
    (completeScheduleRun 0 c4Sched true).storedOriginalStatus = Status.completed :=
  ⟨rfl, rfl, rfl, rfl, rfl, rfl⟩

/-- C4 (amended): whenever the completion workflow actually attempts to
create a successor (recurring, non-null `nextDueDate`, advancer returns a
value), a successor-save failure aborts the call: the error is surfaced to
the caller and the original keeps its prior status in the store (a pending
reminder stays pending); only when the successor save succeeds is the
original persisted as completed alongside exactly the successor record. -/
theorem completion_successor_failure_aborts (now : Int) (s : Schedule) (nd k : Int)
    (hnd : s.nextDueDate = some nd)
    (hfreq : s.frequency ≠ Frequency.once)
    (hcalc : calculateNextDueDate now nd s.frequency s.repeatUntil = some k) :
    (completeScheduleRun now s false).responseOk = false ∧
    (completeScheduleRun now s false).storedOriginalStatus = s.status ∧
    (completeScheduleRun now s false).storedNew = [] ∧
    (completeScheduleRun now s true).responseOk = true ∧
    (completeScheduleRun now s true).storedOriginalStatus = Status.completed ∧
    (completeScheduleRun now s true).storedNew = [rolloverSuccessor s nd k] := by
  simp [completeScheduleRun, hnd, hfreq, hcalc]

/-- Concrete instantiation of the amended C4 failure semantics. -/
theorem completion_successor_failure_aborts_witness :
    (completeScheduleRun 0 c4Sched false).responseOk = false ∧
    (completeScheduleRun 0 c4Sched false).storedOriginalStatus = c4Sched.status ∧
    (completeScheduleRun 0 c4Sched false).storedNew = [] ∧
    (completeScheduleRun 0 c4Sched true).responseOk = true ∧
    (completeScheduleRun 0 c4Sched true).storedOriginalStatus = Status.completed ∧
    (completeScheduleRun 0 c4Sched true).storedNew =
      [rolloverSuccessor c4Sched 172800000 259200000] :=
  completion_successor_failure_aborts 0 c4Sched 172800000 259200000 rfl
    (by decide) rfl

/-! ### C7 -/

/-- Completion always returns the original with `status := completed` and
nothing else changed, in every branch. -/
lemma completeScheduleCore_fst (now : Int) (s : Schedule) :
    (completeScheduleCore now s).1 = { s with status := Status.completed } := by
  unfold completeScheduleCore
  split
  · split
    · split <;> rfl
    · rfl
  · rfl

/-- A completed once-off reminder. -/
def c7Sched : Schedule :=
  { title := "done", dueDate := 0, userId := "u1", status := Status.completed }

/-- C7 counterexample: the update operation has no transition guard — it
copies the requested status verbatim (part_011 line 215) — so a reminder
whose status is `completed` moves back to `pending` when an update request
carries `status = pending`, a reverse transition the claim rules out. -/
theorem status_reverse_transition_counterexample :
    c7Sched.status = Status.completed ∧
    (updateScheduleCore 0 c7Sched { status := some Status.pending }).status =
      Status.pending :=
  ⟨rfl, rfl⟩

/-- C7 (amended): the sweep never changes `status`; completion moves the
original to `completed` and spawns only `pending` successors; an update
without a `status` field preserves `status`; but an update carrying a
`status` field copies it verbatim with no transition guard, so reverse
transitions such as completed → pending are reachable and the
only-forward invariant does not hold. -/
theorem status_transition_surface (now : Int) (s : Schedule) (w : World)
    (r : UpdateRequest) :
    (processSchedule now s w).sched.status = s.status ∧
    (completeScheduleCore now s).1.status = Status.completed ∧
    (∀ t ∈ (completeScheduleCore now s).2, t.status = Status.pending) ∧
    (r.status = none → (updateScheduleCore now s r).status = s.status) ∧
    (∀ st, r.status = some st → (updateScheduleCore now s r).status = st) := by
  refine ⟨?_, ?_, ?_, ?_, ?_⟩
  · unfold processSchedule
    by_cases hf : willFire s now = true
    · simp only [hf, if_true]
      cases w.userRes with
      | rejected => rfl
      | missing => rfl
      | found => cases hs : w.saveOk <;> simp [hs]
    · simp only [Bool.not_eq_true] at hf
      simp [hf]
  · rw [completeScheduleCore_fst]
  · intro t ht
    unfold completeScheduleCore at ht
    split at ht
    · split at ht
      · split at ht
        · simp only [List.mem_singleton] at ht
          rw [ht]
          rfl
        · simp at ht
      · simp at ht
    · simp at ht
  · intro h
    unfold updateScheduleCore
    by_cases hf :
        (r.frequency.getD s.frequency) ≠ Frequency.once <;>
      simp [h, hf]
  · intro st h
    unfold updateScheduleCore
    by_cases hf :
        (r.frequency.getD s.frequency) ≠ Frequency.once <;>
      simp [h, hf]

/-- Concrete instantiation of the amended C7 status surface. -/
theorem status_transition_surface_witness :
    (processSchedule 0 c7Sched ⟨LookupOutcome.found, true, true, true⟩).sched.status =
      c7Sched.status ∧
    (completeScheduleCore 0 c7Sched).1.status = Status.completed ∧
    (∀ t ∈ (completeScheduleCore 0 c7Sched).2, t.status = Status.pending) ∧
    (({ status := some Status.pending } : UpdateRequest).status = none →
      (updateScheduleCore 0 c7Sched { status := some Status.pending }).status =
        c7Sched.status) ∧
    (∀ st, ({ status := some Status.pending } : UpdateRequest).status = some st →
      (updateScheduleCore 0 c7Sched { status := some Status.pending }).status = st) :=
  status_transition_surface 0 c7Sched ⟨LookupOutcome.found, true, true, true⟩
    { status := some Status.pending }

/-! ### C8 -/

/-- Two reminders due at the epoch instant, user notification enabled. -/
def c8SchedA : Schedule := { title := "a", dueDate := 0, userId := "u1" }

/-- Second reminder of the C8 scenario, equally eligible. -/
def c8SchedB : Schedule := { title := "b", dueDate := 0, userId := "u2" }

/-- C8 counterexample: in a tick over two eligible reminders, the first
one's `lastNotified` save rejects — the rejection escapes the `for` loop to
the sweep-level catch, so the second reminder, though eligible with a
perfectly healthy environment, is never processed in that tick: no send, no
state update. -/
theorem sweep_abort_counterexample :
    willFire c8SchedB 0 = true ∧
    c8SchedB.notifyUser = true ∧
    sweepTick 0
        [(c8SchedA, ⟨LookupOutcome.found, true, true, false⟩),
         (c8SchedB, ⟨LookupOutcome.found, true, true, true⟩)] =
      [⟨c8SchedA, ⟨true, false, false⟩, true⟩,
       ⟨c8SchedB, ⟨false, false, false⟩, false⟩] :=
  ⟨by decide, rfl, rfl⟩

/-- C8 (amended): within one iteration for an eligible reminder whose user
lookup succeeds, the client send's outcome is independent of the user send's
failure, and any send failure neither prevents the `lastNotified` update nor
aborts anything when the save succeeds; nothing ever propagates out of the
tick (the sweep-level catch absorbs it) — but either store failure, a
rejected user lookup or a rejected `lastNotified` save, escapes the loop and
leaves every remaining reminder of that tick unprocessed. -/
theorem send_failures_isolated (now : Int) (s : Schedule) (w : World)
    (rest : List (Schedule × World))
    (hfire : willFire s now = true) :
    (w.userRes = LookupOutcome.found →
      (processSchedule now s w).flags.clientNotifSent =
        (s.notifyClient && s.clientId.isSome && w.sendClientOk) ∧
      (w.saveOk = true →
        (processSchedule now s w).flags.lastNotifiedUpdated = true ∧
        (processSchedule now s w).sched = { s with lastNotified := some now } ∧
        (processSchedule now s w).threw = false)) ∧
    ((w.userRes = LookupOutcome.rejected ∨
        (w.userRes = LookupOutcome.found ∧ w.saveOk = false)) →
      (processSchedule now s w).threw = true ∧
      sweepTick now ((s, w) :: rest) =
        processSchedule now s w ::
          rest.map (fun p => ⟨p.1, ⟨false, false, false⟩, false⟩)) := by
  refine ⟨?_, ?_⟩
  · intro huser
    refine ⟨?_, ?_⟩
    · cases hs : w.saveOk <;> simp [processSchedule, hfire, huser, hs]
    · intro hs
      simp [processSchedule, hfire, huser, hs]
  · intro h
    have ht : (processSchedule now s w).threw = true := by
      rcases h with h | ⟨h1, h2⟩
      · simp [processSchedule, hfire, h]
      · simp [processSchedule, hfire, h1, h2]
    exact ⟨ht, by simp [sweepTick, ht]⟩

/-- Environment where the user send and the save both fail. -/
def c8WorldFail : World := ⟨LookupOutcome.found, false, true, false⟩

/-- Fully healthy environment. -/
def c8WorldOk : World := ⟨LookupOutcome.found, true, true, true⟩

/-- Concrete instantiation of the amended C8 isolation and abort facts. -/
theorem send_failures_isolated_witness :
    (c8WorldFail.userRes = LookupOutcome.found →
      (processSchedule 0 c8SchedA c8WorldFail).flags.clientNotifSent =
        (c8SchedA.notifyClient && c8SchedA.clientId.isSome && c8WorldFail.sendClientOk) ∧
      (c8WorldFail.saveOk = true →
        (processSchedule 0 c8SchedA c8WorldFail).flags.lastNotifiedUpdated = true ∧
        (processSchedule 0 c8SchedA c8WorldFail).sched =
          { c8SchedA with lastNotified := some 0 } ∧
        (processSchedule 0 c8SchedA c8WorldFail).threw = false)) ∧
    ((c8WorldFail.userRes = LookupOutcome.rejected ∨
        (c8WorldFail.userRes = LookupOutcome.found ∧ c8WorldFail.saveOk = false)) →
      (processSchedule 0 c8SchedA c8WorldFail).threw = true ∧
      sweepTick 0 ((c8SchedA, c8WorldFail) :: [(c8SchedB, c8WorldOk)]) =
        processSchedule 0 c8SchedA c8WorldFail ::
          List.map (fun p => (⟨p.1, ⟨false, false, false⟩, false⟩ : ProcResult))
            [(c8SchedB, c8WorldOk)]) :=
  send_failures_isolated 0 c8SchedA c8WorldFail [(c8SchedB, c8WorldOk)]
    (by decide)

/-! ### C9 -/

/-- C9: an eligible reminder whose user lookup resolves to null is skipped
whole for the tick: no user or client notification (whatever `notifyClient`
and the linked client), no exception, and the stored record — in particular
`lastNotified` — is untouched, so the reminder is evaluated afresh on the
next tick. -/
theorem userMissing_skips_reminder (now : Int) (s : Schedule) (w : World)
    (hfire : willFire s now = true)
    (huser : w.userRes = LookupOutcome.missing) :
    processSchedule now s w = ⟨s, ⟨false, false, false⟩, false⟩ := by
  simp [processSchedule, hfire, huser]

/-- An eligible reminder with client notification enabled and a client
linked. -/
def c9Sched : Schedule :=
  { title := "call", dueDate := 0, userId := "ghost"
    notifyClient := true, clientId := some "c1" }

/-- Concrete instantiation of the C9 skip behaviour. -/
theorem userMissing_skips_reminder_witness :
    processSchedule 0 c9Sched ⟨LookupOutcome.missing, true, true, true⟩ =
      ⟨c9Sched, ⟨false, false, false⟩, false⟩ :=
  userMissing_skips_reminder 0 c9Sched ⟨LookupOutcome.missing, true, true, true⟩
    (by decide) rfl

/-! ### C10 -/

/-- C10: every update of a recurring reminder recomputes `nextDueDate` even
when the request carries no date-related field; in particular an update
touching only `title`, on a reminder whose `repeatUntil` already lies in the
past of the update's wall clock, nulls out `nextDueDate` while `dueDate`,
`frequency` and `repeatUntil` are unchanged. -/
theorem update_recomputes_nextDueDate (now : Int) (s : Schedule)
    (req : UpdateRequest) (newTitle : String) (r : Int)
    (hfreq : s.frequency ≠ Frequency.once)
    (hdd : req.dueDate = none) (hfr : req.frequency = none)
    (hru : req.repeatUntil = none)
    (hsru : s.repeatUntil = some r) (hnow : r < now) :
    (updateScheduleCore now s req).nextDueDate =
      calculateNextDueDate now s.dueDate s.frequency s.repeatUntil ∧
    (updateScheduleCore now s { title := some newTitle }).nextDueDate = none ∧
    (updateScheduleCore now s { title := some newTitle }).dueDate = s.dueDate ∧
    (updateScheduleCore now s { title := some newTitle }).frequency = s.frequency ∧
    (updateScheduleCore now s { title := some newTitle }).repeatUntil = s.repeatUntil ∧
    (updateScheduleCore now s { title := some newTitle }).status = s.status ∧
    (updateScheduleCore now s { title := some newTitle }).title = newTitle := by
  have hcalc : calculateNextDueDate now s.dueDate s.frequency s.repeatUntil = none := by
    have hp : pastRepeatUntil now s.repeatUntil = true := by
      simp only [hsru, pastRepeatUntil, decide_eq_true_eq, gt_iff_lt]
      exact hnow
    simp [calculateNextDueDate, hp, hfreq]
  refine ⟨?_, ?_, ?_, ?_, ?_, ?_, ?_⟩ <;>
    simp [updateScheduleCore, hdd, hfr, hru, hfreq, hcalc]

/-- A recurring reminder whose `repeatUntil` is already past. -/
def c10Sched : Schedule :=
  { title := "old", dueDate := 86400000, userId := "u1"
    frequency := Frequency.weekly, repeatUntil := some 172800000
    nextDueDate := some 691200000 }

/-- Concrete instantiation of the C10 frame effect: a title-only update at a
wall clock past `repeatUntil` nulls `nextDueDate`. -/
theorem update_recomputes_nextDueDate_witness :
    (updateScheduleCore 259200000 c10Sched { title := some "new" }).nextDueDate =
      calculateNextDueDate 259200000 c10Sched.dueDate c10Sched.frequency
        c10Sched.repeatUntil ∧
    (updateScheduleCore 259200000 c10Sched { title := some "new" }).nextDueDate = none ∧
    (updateScheduleCore 259200000 c10Sched { title := some "new" }).dueDate =
      c10Sched.dueDate ∧
    (updateScheduleCore 259200000 c10Sched { title := some "new" }).frequency =
      c10Sched.frequency ∧
    (updateScheduleCore 259200000 c10Sched { title := some "new" }).repeatUntil =
      c10Sched.repeatUntil ∧
    (updateScheduleCore 259200000 c10Sched { title := some "new" }).status =
      c10Sched.status ∧
    (updateScheduleCore 259200000 c10Sched { title := some "new" }).title = "new" :=
  update_recomputes_nextDueDate 259200000 c10Sched { title := some "new" } "new"
    172800000 (by decide) rfl rfl rfl rfl (by decide)

end Profit
